import Mathlib

/-!
Shallow embedding of the content-approval workflow of the TradeUp X bot
dashboard (file `src/components/BotControl.tsx`) and of its polling data
client (`src/hooks/useApi.ts`, the variant exporting `lastFetch`, which is
the one `BotControl.tsx` imports).

Conventions of the embedding:
* JavaScript `undefined`/absent JSON fields are `Option.none`; nullable
  booleans (`approved: boolean | null`) are `Option Bool`.
* A backend call (`apiCall`) either resolves with a parsed JSON value or
  throws; this is the `ApiOutcome` type.  Call outcomes and random choices
  are oracle inputs to the embedded functions, consumed in program order.
* Timestamps (`Date.now()`, `new Date()`) are a `Nat` parameter.
* JavaScript truthiness of strings (`x || d` falls back on the empty
  string as well as on `undefined`) is the helper `jsStrOr`; truthiness of
  numbers (`n || d` falls back on `0`) is `jsNatOr`.
* React state setters become explicit state passing on `WorkflowState`
  (for `BotControl`) and `UseApiState` (for `useApi`).
-/

namespace TradeupBot

/-- JS `a || d` for an optional string `a`: falls back to `d` when `a` is
`undefined` or the (falsy) empty string. -/
def jsStrOr (a : Option String) (d : String) : String :=
  match a with
  | some s => if s = "" then d else s
  | none => d

/-- JS `n || d` for an optional number `n`: falls back to `d` when `n` is
`undefined` or the (falsy) `0`. -/
def jsNatOr (a : Option Nat) (d : Nat) : Nat :=
  match a with
  | some n => if n = 0 then d else n
  | none => d

/-- JS truthiness of an optional string (used in guards such as
`result.success && result.reply`): `undefined` and `""` are falsy. -/
def jsStrTruthy (a : Option String) : Bool :=
  match a with
  | some s => s ≠ ""
  | none => false

/-- Rendering of an optional string inside a JS template literal:
`undefined` renders as the string `"undefined"`. -/
def jsTemplateStr (a : Option String) : String :=
  match a with
  | some s => s
  | none => "undefined"

/-- Outcome of one `apiCall` invocation: the promise either resolves with a
parsed JSON body of shape `α`, or rejects (non-2xx HTTP status or network
error) with an error message (`apiCall` re-throws in both cases). -/
inductive ApiOutcome (α : Type) where
  | thrown (msg : String)
  | resp (r : α)
deriving Repr, DecidableEq

/-- `true` exactly when the outcome resolved (did not throw). -/
def ApiOutcome.resolved {α : Type} : ApiOutcome α → Bool
  | .thrown _ => false
  | .resp _ => true

end TradeupBot

namespace TradeupBot

/-- `GeneratedContent.type` field of `BotControl.tsx`. -/
inductive ContentType where
  | post
  | reply
deriving Repr, DecidableEq

/-- The `GeneratedContent` interface of `BotControl.tsx` (an
approval-workflow candidate item).  `approved` is the tri-state
`boolean | null` field: `none` = pending, `some true` = approved,
`some false` = rejected.  The numeric `engagement_score` is carried
opaquely as an `Int` (no arithmetic is ever done on it). -/
structure GeneratedContent where
  id : String
  content : String
  type : ContentType
  topic : Option String := none
  originalTweet : Option String := none
  tweetId : Option String := none
  tweetAuthor : Option String := none
  approved : Option Bool := none
  scheduledTime : Option String := none
  engagement_score : Option Int := none
  hashtags : Option (List String) := none
  mentions_tradeup : Option Bool := none
  tweetIndex : Option Nat := none
  autoPost : Option Bool := none
  originalTweetUrl : Option String := none
deriving Repr, DecidableEq

/-- The `BotJob` interface of `BotControl.tsx` (fields the workflow reads). -/
structure BotJob where
  id : String
  name : String
deriving Repr, DecidableEq

/-- The `PostedReply` interface of `BotControl.tsx`. -/
structure PostedReply where
  id : String
  content : String
  originalTweet : String
  tweetAuthor : String
  replyUrl : String
  originalTweetUrl : String
  postedAt : String
deriving Repr, DecidableEq

/-- The `JobSettings` interface of `BotControl.tsx` (every field optional,
as in the TypeScript declaration).  The `name` field models the
`{ ...jobSettings, name: finalJobName }` object stored by
`setCurrentJobSettings`. -/
structure JobSettings where
  postsPerDay : Option Nat := none
  topics : Option (List String) := none
  postingTimeStart : Option String := none
  postingTimeEnd : Option String := none
  postingDate : Option String := none
  maxRepliesPerHour : Option Nat := none
  name : Option String := none
deriving Repr, DecidableEq

/-- Job type selector (`'posting' | 'replying'`). -/
inductive JobType where
  | posting
  | replying
deriving Repr, DecidableEq

/-- The React state of the `BotControl` component that the approval
workflow reads and writes. -/
structure WorkflowState where
  jobs : List BotJob := []
  jobCounter : Nat := 1
  actionLoading : Option String := none
  showScheduler : Bool := false
  showContentApproval : Bool := false
  generatedContent : List GeneratedContent := []
  currentJobSettings : Option JobSettings := none
  apiError : Option String := none
  currentJobType : JobType := .posting
  postedReplies : List PostedReply := []
  showPostedReplies : Bool := false
deriving Repr, DecidableEq

end TradeupBot

namespace TradeupBot

/-! ## `generateScheduledTimes` (BotControl.tsx) -/

/-- Value of a digit string, as computed by JS `Number`/`parseInt` on an
all-digit input. -/
def digitsVal (cs : List Char) : Nat :=
  cs.foldl (fun acc c => acc * 10 + (c.toNat - '0'.toNat)) 0

/-- Parse a character run as a nonnegative decimal integer (the fragment
of JS `Number(...)` exercised by `"HH:MM"` time-of-day strings); `none`
models a `NaN` result. -/
def parseDigits (cs : List Char) : Option Nat :=
  if cs ≠ [] ∧ cs.all Char.isDigit then some (digitsVal cs) else none

/-- JS `String.split(sep)` for a one-character separator, over the
character list (`"".split(':')` is `[""]`, hence the `[[]]` base case). -/
def splitOnChar (sep : Char) : List Char → List (List Char)
  | [] => [[]]
  | c :: rest =>
    let r := splitOnChar sep rest
    if c = sep then [] :: r
    else
      match r with
      | [] => [[c]]
      | p :: ps => (c :: p) :: ps

/-- `startTime.split(':')` followed by destructuring the first two parts
and converting each with `Number`: yields the (hour, minute) pair, or
`none` when a part is missing or non-numeric (a `NaN` run in JS). -/
def splitTime (s : String) : Option (Nat × Nat) :=
  match splitOnChar ':' s.data with
  | h :: m :: _ =>
    match parseDigits h, parseDigits m with
    | some hv, some mv => some (hv, mv)
    | _, _ => none
  | _ => none

/-- `String.padStart(2, '0')` for the decimal rendering of a number
(decimal renderings are never empty, so one conditional suffices). -/
def padStart2 (s : String) : String :=
  if s.length < 2 then "0" ++ s else s

/-- Format a minute-of-day count the way the loop body of
`generateScheduledTimes` does: `Math.floor(postTime / 60)` padded, a
colon, `postTime % 60` padded. -/
def formatPostTime (postTime : Int) : String :=
  padStart2 (toString (Int.fdiv postTime 60)) ++ ":" ++ padStart2 (toString (postTime % 60))

/-- Core loop of `generateScheduledTimes`, after the two time strings have
been parsed into minute counts: `interval = Math.floor(totalMinutes /
count)`, and the i-th emitted time is `startMinutes + interval * i`
formatted as `HH:MM`. -/
def generateScheduledTimesCore (count : Nat) (startMinutes endMinutes : Int) : List String :=
  let totalMinutes := endMinutes - startMinutes
  let interval := Int.fdiv totalMinutes count
  (List.range count).map (fun i : Nat => formatPostTime (startMinutes + interval * (i : Int)))

/-- `generateScheduledTimes(count, startTime, endTime)` of
`BotControl.tsx`.  When either time string fails to parse, every arithmetic
value in the JS loop is `NaN` and each emitted time renders as
`"NaN:NaN"`; the parsable case is `generateScheduledTimesCore`. -/
def generateScheduledTimes (count : Nat) (startTime endTime : String) : List String :=
  match splitTime startTime, splitTime endTime with
  | some (sh, sm), some (eh, em) =>
    generateScheduledTimesCore count (sh * 60 + sm) (eh * 60 + em)
  | _, _ => List.replicate count "NaN:NaN"

end TradeupBot

namespace TradeupBot

/-! ## Backend response shapes (section 6 of the REST surface) -/

/-- The object form of the `content` field of a `/api/generate-content`
response (`{content, hashtags?, engagement_score?, mentions_tradeup?}`). -/
structure GenPayload where
  content : String
  engagement_score : Option Int := none
  hashtags : Option (List String) := none
  mentions_tradeup : Option Bool := none
deriving Repr, DecidableEq

/-- A resolved `/api/generate-content` response body.  `content = none`
models an absent (falsy) `content` field, so the JS guard
`contentResult.success && contentResult.content` is
`success && content.isSome`. -/
structure GenContentResp where
  success : Bool
  content : Option GenPayload := none
deriving Repr, DecidableEq

/-- A resolved `/api/generate-reply` response body; the guard
`replyResult.success && replyResult.reply` additionally treats an empty
reply string as falsy. -/
structure GenReplyResp where
  success : Bool
  reply : Option String := none
deriving Repr, DecidableEq

/-- One tweet from a `/api/fetch-tweets-from-sheets` response. -/
structure Tweet where
  id : String
  text : String
  author : String
deriving Repr, DecidableEq

/-- A resolved `/api/fetch-tweets-from-sheets` response body. -/
structure TweetsResp where
  success : Bool
  tweets : Option (List Tweet) := none
deriving Repr, DecidableEq

/-- A resolved `/api/post-reply-with-tracking` response body. -/
structure PostReplyResp where
  success : Bool
  tweet_id : Option String := none
  tweet_url : Option String := none
  error : Option String := none
deriving Repr, DecidableEq

/-- A resolved `/api/bot-job/create-posting-job` response body. -/
structure CreateJobResp where
  success : Bool
  error : Option String := none
deriving Repr, DecidableEq

/-! ## Reviewing actions: `approveContent`, `regenerateContent`,
`regenerateForDifferentTweet` -/

/-- `approveContent(contentId)` of `BotControl.tsx`: map over the batch,
setting `approved = true` on the matching item and leaving every other
item untouched. -/
def approveContent (st : WorkflowState) (contentId : String) : WorkflowState :=
  { st with
    generatedContent :=
      st.generatedContent.map (fun item =>
        if item.id = contentId then { item with approved := some true } else item) }

/-- The batch update applied by `regenerateContent` on a successful
`/api/generate-content` response for a post item: replace `content`,
reset `approved` to `null`, refresh the generation metadata. -/
def applyPostRegeneration (content : List GeneratedContent) (contentId : String)
    (p : GenPayload) : List GeneratedContent :=
  content.map (fun c =>
    if c.id = contentId then
      { c with
        content := p.content
        approved := none
        engagement_score := p.engagement_score
        hashtags := p.hashtags
        mentions_tradeup := p.mentions_tradeup }
    else c)

/-- The batch update applied by `regenerateContent` on a successful
`/api/generate-reply` response for a reply item: replace `content` and
reset `approved` to `null`. -/
def applyReplyRegeneration (content : List GeneratedContent) (contentId : String)
    (reply : String) : List GeneratedContent :=
  content.map (fun c =>
    if c.id = contentId then { c with content := reply, approved := none } else c)

/-- `regenerateContent(contentId)` of `BotControl.tsx`.  `genOutcome` is
the `/api/generate-content` call outcome consumed when the item is a post;
`replyOutcome` is the `/api/generate-reply` outcome consumed when it is a
reply.  A thrown call is caught and stored in `apiError`; a resolved but
unsuccessful response falls through without touching the batch (and
without setting any error).  The `finally` block clears `actionLoading`. -/
def regenerateContent (st : WorkflowState) (contentId : String)
    (genOutcome : ApiOutcome GenContentResp) (replyOutcome : ApiOutcome GenReplyResp) :
    WorkflowState :=
  let st0 := { st with actionLoading := some ("regenerate-" ++ contentId), apiError := none }
  match st0.generatedContent.find? (fun c => c.id = contentId) with
  | none => { st0 with actionLoading := none }
  | some item =>
    if item.type = .post then
      match genOutcome with
      | .thrown msg =>
        { st0 with
          apiError := some ("Failed to regenerate content: " ++ msg)
          actionLoading := none }
      | .resp r =>
        match r.content with
        | some p =>
          if r.success then
            { st0 with
              generatedContent := applyPostRegeneration st0.generatedContent contentId p
              actionLoading := none }
          else { st0 with actionLoading := none }
        | none => { st0 with actionLoading := none }
    else
      match replyOutcome with
      | .thrown msg =>
        { st0 with
          apiError := some ("Failed to regenerate content: " ++ msg)
          actionLoading := none }
      | .resp r =>
        if r.success ∧ jsStrTruthy r.reply then
          { st0 with
            generatedContent :=
              applyReplyRegeneration st0.generatedContent contentId (jsTemplateStr r.reply)
            actionLoading := none }
        else { st0 with actionLoading := none }

/-- The batch update applied by `regenerateForDifferentTweet` on a
successful reply regeneration against a different source tweet. -/
def applyDifferentTweetRegeneration (content : List GeneratedContent) (contentId : String)
    (t : Tweet) (reply : String) : List GeneratedContent :=
  content.map (fun c =>
    if c.id = contentId then
      { c with
        content := reply
        originalTweet := some t.text
        tweetId := some t.id
        tweetAuthor := some t.author
        originalTweetUrl := some ("https://twitter.com/" ++ t.author ++ "/status/" ++ t.id)
        approved := none }
    else c)

/-- The batch update applied by `regenerateForDifferentTweet` on a
successful post regeneration with a different topic. -/
def applyDifferentTopicRegeneration (content : List GeneratedContent) (contentId : String)
    (topic : String) (p : GenPayload) : List GeneratedContent :=
  content.map (fun c =>
    if c.id = contentId then
      { c with
        content := p.content
        topic := some topic
        approved := none
        engagement_score := p.engagement_score
        hashtags := p.hashtags
        mentions_tradeup := p.mentions_tradeup }
    else c)

/-- `regenerateForDifferentTweet(contentId)` of `BotControl.tsx`.
Oracles: `tweetsOutcome` is the `/api/fetch-tweets-from-sheets` outcome
(reply items), `pick` the `Math.random` index choice (reduced modulo the
candidate count to stay in range), `replyOutcome` / `genOutcome` the
subsequent generation call outcome.  For a post item whose settings offer
no different topic, the source awaits `regenerateContent` and returns, so
the embedded fallback calls `regenerateContent` on the intermediate state
(the outer `finally` then clears `actionLoading` again). -/
def regenerateForDifferentTweet (st : WorkflowState) (contentId : String)
    (tweetsOutcome : ApiOutcome TweetsResp) (pick : Nat)
    (replyOutcome : ApiOutcome GenReplyResp) (genOutcome : ApiOutcome GenContentResp) :
    WorkflowState :=
  let st0 :=
    { st with actionLoading := some ("regenerate-different-" ++ contentId), apiError := none }
  match st0.generatedContent.find? (fun c => c.id = contentId) with
  | none => { st0 with actionLoading := none }
  | some item =>
    if item.type = .reply then
      match tweetsOutcome with
      | .thrown msg =>
        { st0 with
          apiError := some ("Failed to regenerate content: " ++ msg)
          actionLoading := none }
      | .resp tr =>
        match tr.tweets with
        | some tweets =>
          if tr.success ∧ tweets.length > 0 then
            let differentTweets := tweets.filter (fun t =>
              match item.tweetId with
              | some tid => t.id ≠ tid
              | none => true)
            if differentTweets.length = 0 then
              { st0 with
                apiError := some "No other tweets available to generate a different reply."
                actionLoading := none }
            else
              match differentTweets.get? (pick % differentTweets.length) with
              | none => { st0 with actionLoading := none }
              | some randomTweet =>
                match replyOutcome with
                | .thrown msg =>
                  { st0 with
                    apiError := some ("Failed to regenerate content: " ++ msg)
                    actionLoading := none }
                | .resp r =>
                  if r.success ∧ jsStrTruthy r.reply then
                    { st0 with
                      generatedContent :=
                        applyDifferentTweetRegeneration st0.generatedContent contentId
                          randomTweet (jsTemplateStr r.reply)
                      actionLoading := none }
                  else { st0 with actionLoading := none }
          else { st0 with actionLoading := none }
        | none => { st0 with actionLoading := none }
    else
      let availableTopics :=
        match st0.currentJobSettings with
        | some s =>
          match s.topics with
          | some ts => ts
          | none => ["Pokemon TCG", "Card Pulls", "Deck Building", "Tournaments"]
        | none => ["Pokemon TCG", "Card Pulls", "Deck Building", "Tournaments"]
      let differentTopics := availableTopics.filter (fun t =>
        match item.topic with
        | some cur => t ≠ cur
        | none => true)
      if differentTopics.length = 0 then
        let st1 := regenerateContent st0 contentId genOutcome (.resp { success := false })
        { st1 with actionLoading := none }
      else
        match differentTopics.get? (pick % differentTopics.length) with
        | none => { st0 with actionLoading := none }
        | some randomTopic =>
          match genOutcome with
          | .thrown msg =>
            { st0 with
              apiError := some ("Failed to regenerate content: " ++ msg)
              actionLoading := none }
          | .resp r =>
            match r.content with
            | some p =>
              if r.success then
                { st0 with
                  generatedContent :=
                    applyDifferentTopicRegeneration st0.generatedContent contentId
                      randomTopic p
                  actionLoading := none }
              else { st0 with actionLoading := none }
            | none => { st0 with actionLoading := none }

end TradeupBot

namespace TradeupBot

/-! ## Job auto-naming (`BotControl` jobs `useEffect` and
`createJobWithApproval` / `createNewJob`) -/

/-- JS `String.trim()`: strip whitespace from both ends. -/
def jsTrim (s : String) : String :=
  String.mk (((s.data.dropWhile Char.isWhitespace).reverse.dropWhile Char.isWhitespace).reverse)

/-- JS `hay.includes(needle)` (substring test). -/
def strIncludes (hay needle : String) : Bool :=
  (List.range (hay.data.length + 1)).any (fun i => needle.data.isPrefixOf (hay.data.drop i))

/-- The regex `/^Job #(\d+)$/` followed by `parseInt(match[1], 10)`:
`some n` when the whole name is `"Job #"` followed by one or more decimal
digits of value `n`. -/
def jobNameNumber (name : String) : Option Nat :=
  match name.data with
  | 'J' :: 'o' :: 'b' :: ' ' :: '#' :: rest =>
    if rest ≠ [] ∧ rest.all Char.isDigit then some (digitsVal rest) else none
  | _ => none

/-- The demo-job display filter: `status.jobs.filter(job =>
!job.id.includes('demo'))`. -/
def realJobsOf (statusJobs : List BotJob) : List BotJob :=
  statusJobs.filter (fun j => ¬ strIncludes j.id "demo")

/-- The `reduce` in the jobs `useEffect`: the largest `Job #N` number among
the given jobs, starting from 0. -/
def maxJobNumber (jobsList : List BotJob) : Nat :=
  jobsList.foldl
    (fun mx j =>
      match jobNameNumber j.name with
      | some n => Nat.max mx n
      | none => mx)
    0

/-- The jobs `useEffect` of `BotControl`, run on a successful
`/api/bot-status` snapshot: store the demo-filtered job list and set
`jobCounter` to the highest `Job #N` number plus one. -/
def updateJobsFromStatus (st : WorkflowState) (statusJobs : List BotJob) : WorkflowState :=
  let realJobs := realJobsOf statusJobs
  { st with jobs := realJobs, jobCounter := maxJobNumber realJobs + 1 }

/-- `jobName.trim() || `Job #${jobCounter}``: the final name given to a
newly created job (`createJobWithApproval` and `createNewJob`). -/
def finalJobNameOf (jobCounter : Nat) (jobName : String) : String :=
  if jsTrim jobName = "" then "Job #" ++ toString jobCounter else jsTrim jobName

/-! ## Batch generation (`createJobWithApproval`) -/

/-- Topic selection for one posting-loop iteration:
`jobSettings.topics?.[Math.floor(Math.random() * jobSettings.topics.length)]
|| 'Pokemon TCG'`.  `pick` is the random draw, reduced modulo the topic
count (for an empty list the JS index `0` reads `undefined` and the
fallback applies, which `get?` reproduces). -/
def pickTopic (topics : Option (List String)) (pick : Nat) : String :=
  match topics with
  | none => "Pokemon TCG"
  | some ts => jsStrOr (ts.get? (if ts.length = 0 then 0 else pick % ts.length)) "Pokemon TCG"

/-- The `GeneratedContent` assembled for a successful post generation at
loop index `i`.  The source extracts the text as `contentResult.content.content
|| contentResult.content`; payloads are modelled in their object form, so
the extraction is the payload's `content` field. -/
def mkPostItem (now i : Nat) (topic : String) (p : GenPayload) : GeneratedContent :=
  { id := "post-" ++ toString now ++ "-" ++ toString i
    content := p.content
    type := .post
    topic := some topic
    approved := none
    engagement_score := p.engagement_score
    hashtags := p.hashtags
    mentions_tradeup := p.mentions_tradeup }

/-- The posting generation loop of `createJobWithApproval`, from loop
index `i` with `rem` iterations left.  Each iteration awaits one
`/api/generate-content` call (`genAt i`); the loop body has no local
`try`/`catch`, so a thrown call aborts the whole loop into the outer
`catch` (`Except.error`), discarding every item gathered so far; a
resolved response contributes an item exactly when `success` holds and a
`content` payload is present, and is silently skipped otherwise. -/
def runPostingGenerationFrom (topics : Option (List String)) (pickAt : Nat → Nat)
    (genAt : Nat → ApiOutcome GenContentResp) (now : Nat) :
    Nat → Nat → Except String (List GeneratedContent)
  | _, 0 => .ok []
  | i, rem + 1 =>
    match genAt i with
    | .thrown msg => .error msg
    | .resp r =>
      match runPostingGenerationFrom topics pickAt genAt now (i + 1) rem with
      | .error msg => .error msg
      | .ok rest =>
        match r.content with
        | some p =>
          .ok (if r.success then mkPostItem now i (pickTopic topics (pickAt i)) p :: rest else rest)
        | none => .ok rest

/-- The full posting generation loop (`postsPerDay || 5` iterations from
index 0). -/
def runPostingGeneration (settings : JobSettings) (pickAt : Nat → Nat)
    (genAt : Nat → ApiOutcome GenContentResp) (now : Nat) :
    Except String (List GeneratedContent) :=
  runPostingGenerationFrom settings.topics pickAt genAt now 0 (jsNatOr settings.postsPerDay 5)

/-- `content.forEach((item, index) => item.scheduledTime =
scheduledTimes[index])`: the item at position `index` receives the
`index`-th scheduled time (`none` when the index is out of range, the JS
`undefined`). -/
def assignScheduledTimes (content : List GeneratedContent) (times : List String) :
    List GeneratedContent :=
  content.enum.map (fun pair => { pair.2 with scheduledTime := times.get? pair.1 })

/-- The `GeneratedContent` assembled for a successful reply generation at
loop index `i` against tweet `t`. -/
def mkReplyItem (now i : Nat) (t : Tweet) (reply : String) : GeneratedContent :=
  { id := "reply-" ++ toString now ++ "-" ++ toString i
    content := reply
    type := .reply
    originalTweet := some t.text
    tweetId := some t.id
    tweetAuthor := some t.author
    approved := none
    scheduledTime := some "On Approval"
    tweetIndex := some i
    autoPost := some true
    originalTweetUrl := some ("https://twitter.com/" ++ t.author ++ "/status/" ++ t.id) }

/-- The reply generation loop of `createJobWithApproval`, from loop index
`i`.  Unlike the posting loop, each iteration wraps its
`/api/generate-reply` call in `try`/`catch`, so a thrown call only skips
that tweet. -/
def runReplyGenerationFrom (replyAt : Nat → ApiOutcome GenReplyResp) (now : Nat) :
    List Tweet → Nat → List GeneratedContent
  | [], _ => []
  | t :: rest, i =>
    let tail := runReplyGenerationFrom replyAt now rest (i + 1)
    match replyAt i with
    | .thrown _ => tail
    | .resp r =>
      if r.success ∧ jsStrTruthy r.reply then mkReplyItem now i t (jsTemplateStr r.reply) :: tail
      else tail

/-- Common success continuation of `createJobWithApproval`: store the
batch, remember the settings (with the final job name) and job type, close
the scheduler, open the approval modal; the `finally` clears
`actionLoading`. -/
def finishGeneration (st : WorkflowState) (settings : JobSettings) (finalJobName : String)
    (jobType : JobType) (content : List GeneratedContent) : WorkflowState :=
  { st with
    generatedContent := content
    currentJobSettings := some { settings with name := some finalJobName }
    currentJobType := jobType
    showScheduler := false
    showContentApproval := true
    actionLoading := none }

/-- `createJobWithApproval(jobSettings, jobName, jobType)` of
`BotControl.tsx`.  Oracles: `pickAt i` is the posting loop's random topic
draw at iteration `i`, `genAt i` the `/api/generate-content` outcome at
iteration `i`, `tweetsOutcome` the `/api/fetch-tweets-from-sheets` outcome
and `replyAt i` the `/api/generate-reply` outcome at reply index `i`,
`now` the `Date.now()` timestamp.  A call thrown outside a local
`try`/`catch` lands in the outer `catch`, which stores
`Failed to generate content: …` in `apiError` and leaves the rest of the
state (in particular `showContentApproval` and `generatedContent`)
untouched. -/
def createJobWithApproval (st : WorkflowState) (settings : JobSettings) (jobName : String)
    (jobType : JobType) (pickAt : Nat → Nat) (genAt : Nat → ApiOutcome GenContentResp)
    (tweetsOutcome : ApiOutcome TweetsResp) (replyAt : Nat → ApiOutcome GenReplyResp)
    (now : Nat) : WorkflowState :=
  let st0 := { st with actionLoading := some "generate-content", apiError := none }
  let finalJobName := finalJobNameOf st0.jobCounter jobName
  let st1 := if jsTrim jobName = "" then { st0 with jobCounter := st0.jobCounter + 1 } else st0
  match jobType with
  | .posting =>
    match runPostingGeneration settings pickAt genAt now with
    | .error msg =>
      { st1 with
        apiError := some ("Failed to generate content: " ++ msg)
        actionLoading := none }
    | .ok items =>
      let scheduledTimes :=
        generateScheduledTimes (jsNatOr settings.postsPerDay 5)
          (jsStrOr settings.postingTimeStart "09:00") (jsStrOr settings.postingTimeEnd "17:00")
      finishGeneration st1 settings finalJobName jobType
        (assignScheduledTimes items scheduledTimes)
  | .replying =>
    let numReplies := jsNatOr settings.maxRepliesPerHour 5
    match tweetsOutcome with
    | .thrown msg =>
      { st1 with
        apiError := some ("Failed to generate content: " ++ msg)
        actionLoading := none }
    | .resp tr =>
      match tr.tweets with
      | none =>
        { st1 with
          apiError := some
            "No tweets found in Google Sheets to reply to. Please check your Google Sheets setup."
          actionLoading := none }
      | some tweets =>
        if ¬ tr.success ∨ tweets.length = 0 then
          { st1 with
            apiError := some
              "No tweets found in Google Sheets to reply to. Please check your Google Sheets setup."
            actionLoading := none }
        else
          let content := runReplyGenerationFrom replyAt now (tweets.take numReplies) 0
          if content.length = 0 then
            { st1 with
              apiError := some "Failed to generate any replies. Please try again."
              actionLoading := none }
          else finishGeneration st1 settings finalJobName jobType content

end TradeupBot

namespace TradeupBot

/-! ## Batch commit (`scheduleApprovedContent`) -/

/-- The `PostedReply` record pushed after a successful
`/api/post-reply-with-tracking` call (`sc` is the success count *after*
the increment, used in the fallback id). -/
def mkPostedReply (reply : GeneratedContent) (pr : PostReplyResp) (now sc : Nat) : PostedReply :=
  { id := jsStrOr pr.tweet_id ("reply_" ++ toString now ++ "_" ++ toString sc)
    content := reply.content
    originalTweet := jsStrOr reply.originalTweet ""
    tweetAuthor := jsStrOr reply.tweetAuthor ""
    replyUrl := jsStrOr pr.tweet_url
      ("https://twitter.com/TradeUpApp/status/" ++ jsTemplateStr pr.tweet_id)
    originalTweetUrl := jsStrOr reply.originalTweetUrl
      ("https://twitter.com/" ++ jsTemplateStr reply.tweetAuthor ++ "/status/"
        ++ jsTemplateStr reply.tweetId)
    postedAt := toString now }

/-- The sequential posting loop over the approved replies, from loop index
`i` with running success count `sc`.  Each iteration awaits one
`/api/post-reply-with-tracking` call (`outAt i`) inside its own
`try`/`catch`: a thrown call and a resolved-but-unsuccessful response are
both simply skipped (no abort), and each success appends exactly one
`PostedReply` record.  The result is the final success count and the
accumulated records, in posting order. -/
def postRepliesLoopFrom (outAt : Nat → ApiOutcome PostReplyResp) (now : Nat) :
    List GeneratedContent → Nat → Nat → Nat × List PostedReply
  | [], _, sc => (sc, [])
  | reply :: rest, i, sc =>
    match outAt i with
    | .thrown _ => postRepliesLoopFrom outAt now rest (i + 1) sc
    | .resp pr =>
      if pr.success then
        let out := postRepliesLoopFrom outAt now rest (i + 1) (sc + 1)
        (out.1, mkPostedReply reply pr now (sc + 1) :: out.2)
      else postRepliesLoopFrom outAt now rest (i + 1) sc

/-- `scheduleApprovedContent()` of `BotControl.tsx`.  Oracles: `jobOutcome`
is the `/api/bot-job/create-posting-job` outcome (posting flow),
`replyOutAt i` the `/api/post-reply-with-tracking` outcome for the `i`-th
approved reply (replying flow).  The second component of the result counts
the network calls the commit performed (0 on the zero-approved guard, one
per approved reply in the replying flow, 1 in the posting flow).  In the
replying flow the source closes the approval modal and clears the batch
*unconditionally* after the loop, whether or not any reply succeeded. -/
def scheduleApprovedContent (st : WorkflowState) (jobOutcome : ApiOutcome CreateJobResp)
    (replyOutAt : Nat → ApiOutcome PostReplyResp) (now : Nat) : WorkflowState × Nat :=
  let st0 := { st with actionLoading := some "schedule", apiError := none }
  let approvedItems := st0.generatedContent.filter (fun item => item.approved = some true)
  if approvedItems.length = 0 then
    ({ st0 with
        apiError := some "Please approve at least one item before posting."
        actionLoading := none },
      0)
  else if st0.currentJobType = .replying then
    let out := postRepliesLoopFrom replyOutAt now approvedItems 0 0
    let st1 :=
      if out.1 > 0 then { st0 with postedReplies := out.2, showPostedReplies := true }
      else
        { st0 with
          apiError := some
            "No replies were successfully posted. Please check your Twitter API connection." }
    ({ st1 with showContentApproval := false, generatedContent := [], actionLoading := none },
      approvedItems.length)
  else
    match jobOutcome with
    | .thrown msg =>
      ({ st0 with
          apiError := some ("Failed to process content: " ++ msg)
          actionLoading := none },
        1)
    | .resp r =>
      if r.success then
        ({ st0 with
            showContentApproval := false
            generatedContent := []
            actionLoading := none },
          1)
      else ({ st0 with actionLoading := none }, 1)

end TradeupBot

namespace TradeupBot

/-! ## Polling data client (`useApi.ts`, `fetchData`) -/

/-- The state exposed by the `useApi` hook. -/
structure UseApiState (α : Type) where
  data : Option α := none
  loading : Bool := true
  error : Option String := none
  lastFetch : Option Nat := none
deriving Repr, DecidableEq

/-- Outcome of one `fetch`-and-parse attempt inside `fetchData`:
a 2xx response with parsed body `result`, a non-2xx response (the code
throws `HTTP error! status: ${status}`), or a network/parse failure whose
caught message is `msg` (the caught value's `message`, or the literal
`An error occurred` for a non-`Error` throw). -/
inductive FetchOutcome (α : Type) where
  | ok (result : α)
  | httpError (status : Nat)
  | failure (msg : String)
deriving Repr, DecidableEq

/-- `fetchData(isManual)` of `useApi.ts` as a state transition.  On entry
it sets `loading` (only for automatic fetches) and clears `error`; on
success it replaces `data` and records `lastFetch`; on any failure it
stores the error message and still records `lastFetch`, leaving `data`
untouched; `finally` clears `loading`. -/
def fetchData {α : Type} (st : UseApiState α) (isManual : Bool) (outcome : FetchOutcome α)
    (now : Nat) : UseApiState α :=
  let st0 := { st with loading := if isManual then st.loading else true, error := none }
  match outcome with
  | .ok result => { st0 with data := some result, lastFetch := some now, loading := false }
  | .httpError status =>
    { st0 with
      error := some ("HTTP error! status: " ++ toString status)
      lastFetch := some now
      loading := false }
  | .failure msg => { st0 with error := some msg, lastFetch := some now, loading := false }

/-- `true` exactly when the fetch attempt failed (non-2xx status or
network error). -/
def FetchOutcome.isFailure {α : Type} : FetchOutcome α → Bool
  | .ok _ => false
  | .httpError _ => true
  | .failure _ => true

/-! ## The approval-modal counters (`ContentApprovalModal`) -/

/-- `content.filter(c => c.approved === true).length`. -/
def approvedCount (content : List GeneratedContent) : Nat :=
  (content.filter (fun c => c.approved = some true)).length

/-- `content.filter(c => c.approved === false).length` (the "Rejected"
stat of the modal). -/
def rejectedCount (content : List GeneratedContent) : Nat :=
  (content.filter (fun c => c.approved = some false)).length

/-- `content.filter(c => c.approved === null).length`. -/
def pendingCount (content : List GeneratedContent) : Nat :=
  (content.filter (fun c => c.approved = none)).length

end TradeupBot

namespace TradeupBot

/-! ## Derived measures and operation sequences used by the statements -/

/-- The highest `Job #N` number among a job list, written as a fold of
`Nat.max` over the parsed names (the specification's description of the
auto-numbering scan). -/
def highestJobNumber (jobsList : List BotJob) : Nat :=
  (jobsList.filterMap (fun j => jobNameNumber j.name)).foldr Nat.max 0

/-- A `/api/generate-content` outcome that contributes an item to the
posting batch: resolved, `success`, and carrying a `content` payload. -/
def isGenSuccess : ApiOutcome GenContentResp → Bool
  | .thrown _ => false
  | .resp r => r.success && r.content.isSome

/-- Number of successful `/api/generate-content` outcomes among the loop
indices `i, i+1, …, i+len-1`. -/
def countGenSuccessesFrom (genAt : Nat → ApiOutcome GenContentResp) : Nat → Nat → Nat
  | _, 0 => 0
  | i, len + 1 =>
    (if isGenSuccess (genAt i) then 1 else 0) + countGenSuccessesFrom genAt (i + 1) len

/-- A `/api/post-reply-with-tracking` outcome counted as a success by the
commit loop: resolved with `success = true`. -/
def isPostReplySuccess : ApiOutcome PostReplyResp → Bool
  | .thrown _ => false
  | .resp pr => pr.success

/-- Number of successful `/api/post-reply-with-tracking` outcomes among
the loop indices `i, i+1, …, i+len-1`. -/
def countReplySuccessesFrom (outAt : Nat → ApiOutcome PostReplyResp) : Nat → Nat → Nat
  | _, 0 => 0
  | i, len + 1 =>
    (if isPostReplySuccess (outAt i) then 1 else 0) + countReplySuccessesFrom outAt (i + 1) len

/-- One user action available while the approval modal is open
(`ContentApprovalModal` wires exactly these three handlers to its per-item
buttons), together with the call outcomes its handler consumes. -/
inductive ReviewOp where
  | approve (cid : String)
  | regenerate (cid : String) (genO : ApiOutcome GenContentResp) (replyO : ApiOutcome GenReplyResp)
  | regenerateDifferent (cid : String) (tweetsO : ApiOutcome TweetsResp) (pick : Nat)
      (replyO : ApiOutcome GenReplyResp) (genO : ApiOutcome GenContentResp)

/-- Dispatch one reviewing action to its handler. -/
def applyReviewOp (st : WorkflowState) : ReviewOp → WorkflowState
  | .approve cid => approveContent st cid
  | .regenerate cid genO replyO => regenerateContent st cid genO replyO
  | .regenerateDifferent cid tweetsO pick replyO genO =>
    regenerateForDifferentTweet st cid tweetsO pick replyO genO

/-- Run a sequence of reviewing actions in order. -/
def applyReviewOps (st : WorkflowState) : List ReviewOp → WorkflowState
  | [] => st
  | op :: ops => applyReviewOps (applyReviewOp st op) ops

/-- No item of the batch is marked rejected (`approved = false`). -/
def neverRejected (content : List GeneratedContent) : Prop :=
  ∀ c ∈ content, c.approved ≠ some false

end TradeupBot

namespace TradeupBot

/-! ## Theorems -/

/-- C8: for every fetch failure of the polling data client (non-2xx status
or network error, including HTTP 429), `data` is left unchanged (stale
data is never cleared), `error` is set to the descriptive message of the
failure, and `lastFetch` is still updated to the time of the attempt. -/
theorem fetchData_stale_on_error {α : Type} (st : UseApiState α) (isManual : Bool)
    (outcome : FetchOutcome α) (now : Nat) (h : outcome.isFailure = true) :
    (fetchData st isManual outcome now).data = st.data ∧
    (fetchData st isManual outcome now).error ≠ none ∧
    (∀ status, outcome = .httpError status →
      (fetchData st isManual outcome now).error =
        some ("HTTP error! status: " ++ toString status)) ∧
    (∀ msg, outcome = .failure msg → (fetchData st isManual outcome now).error = some msg) ∧
    (fetchData st isManual outcome now).lastFetch = some now := by
  cases outcome with
  | ok r => simp [FetchOutcome.isFailure] at h
  | httpError status => simp [fetchData]
  | failure msg => simp [fetchData]

/-- Witness for C8: a poll with three data rows cached that then receives
an HTTP 429 keeps the cached rows, reports the 429 message, and records
the attempt time. -/
theorem fetchData_stale_on_error_witness :
    (FetchOutcome.httpError (α := List Nat) 429).isFailure = true ∧
    (fetchData { data := some [1, 2, 3], loading := false, error := none, lastFetch := some 5 }
        false (FetchOutcome.httpError (α := List Nat) 429) 6).data = some [1, 2, 3] ∧
    (fetchData { data := some [1, 2, 3], loading := false, error := none, lastFetch := some 5 }
        false (FetchOutcome.httpError (α := List Nat) 429) 6).error =
      some "HTTP error! status: 429" ∧
    (fetchData { data := some [1, 2, 3], loading := false, error := none, lastFetch := some 5 }
        false (FetchOutcome.httpError (α := List Nat) 429) 6).lastFetch = some 6 := by
  refine ⟨by decide, ?_, ?_, ?_⟩
  · exact (fetchData_stale_on_error _ false _ 6 (by decide)).1
  · have h := (fetchData_stale_on_error
      ({ data := some [1, 2, 3], loading := false, error := none, lastFetch := some 5 } :
        UseApiState (List Nat)) false (FetchOutcome.httpError 429) 6 (by decide)).2.2.1 429 rfl
    simpa using h
  · exact (fetchData_stale_on_error _ false _ 6 (by decide)).2.2.2.2

/-- C6: `approveContent` is idempotent — applying it twice yields the same
state as applying it once — and it rewrites exactly the matching item to
`approved = true` (content untouched) while every other item of the batch
is returned unchanged. -/
theorem approveContent_idempotent (st : WorkflowState) (cid : String) :
    approveContent (approveContent st cid) cid = approveContent st cid ∧
    ∀ i old, st.generatedContent.get? i = some old →
      (approveContent st cid).generatedContent.get? i =
        some (if old.id = cid then { old with approved := some true } else old) := by
  constructor
  · have hgc : ∀ l : List GeneratedContent,
        (l.map (fun item =>
            if item.id = cid then { item with approved := some true } else item)).map
          (fun item => if item.id = cid then { item with approved := some true } else item) =
        l.map (fun item =>
          if item.id = cid then { item with approved := some true } else item) := by
      intro l
      rw [List.map_map]
      apply List.map_congr_left
      intro a _
      by_cases h : a.id = cid <;> simp [h]
    simp only [approveContent]
    rw [hgc]
  · intro i old h
    have h' : st.generatedContent[i]? = some old := by
      simpa [List.get?_eq_getElem?] using h
    simp [approveContent, List.get?_eq_getElem?, List.getElem?_map, h']

/-- Witness for C6: approving item `a` in a two-item batch marks it
approved and leaves its content untouched. -/
theorem approveContent_idempotent_witness :
    ([{ id := "a", content := "hello", type := ContentType.post },
        { id := "b", content := "other", type := ContentType.post }] :
      List GeneratedContent).get? 0 =
      some { id := "a", content := "hello", type := ContentType.post } ∧
    (approveContent
        { generatedContent := [{ id := "a", content := "hello", type := ContentType.post },
            { id := "b", content := "other", type := ContentType.post }] }
        "a").generatedContent.get? 0 =
      some (if ("a" : String) = "a" then
          ({ id := "a", content := "hello", type := ContentType.post, approved := some true } :
            GeneratedContent)
        else { id := "a", content := "hello", type := ContentType.post }) := by
  refine ⟨by decide, (approveContent_idempotent
      { generatedContent := [{ id := "a", content := "hello", type := ContentType.post },
          { id := "b", content := "other", type := ContentType.post }] } "a").2 0
      { id := "a", content := "hello", type := ContentType.post } ?_⟩
  decide

/-- C5: committing a batch with zero approved items is refused with a
validation message, performs zero network calls, and leaves the whole
state (in particular the batch and the open modal) otherwise unchanged. -/
theorem scheduleApprovedContent_commit_guard (st : WorkflowState)
    (jobOutcome : ApiOutcome CreateJobResp) (replyOutAt : Nat → ApiOutcome PostReplyResp)
    (now : Nat) (h : approvedCount st.generatedContent = 0) :
    scheduleApprovedContent st jobOutcome replyOutAt now =
      ({ st with
          apiError := some "Please approve at least one item before posting."
          actionLoading := none },
        0) := by
  unfold scheduleApprovedContent
  simp only [approvedCount] at h
  simp [h]

/-- Witness for C5: a batch whose single item is still pending has zero
approved items, and its commit is refused with no call made and the open
modal and batch intact. -/
theorem scheduleApprovedContent_commit_guard_witness :
    approvedCount [{ id := "a", content := "hello", type := ContentType.reply }] = 0 ∧
    scheduleApprovedContent
        { generatedContent := [{ id := "a", content := "hello", type := ContentType.reply }],
          currentJobType := JobType.replying, showContentApproval := true }
        (ApiOutcome.resp { success := true }) (fun _ => ApiOutcome.resp { success := true }) 0 =
      ({ generatedContent := [{ id := "a", content := "hello", type := ContentType.reply }],
          currentJobType := JobType.replying, showContentApproval := true,
          apiError := some "Please approve at least one item before posting.",
          actionLoading := none },
        0) := by
  refine ⟨by decide, ?_⟩
  exact scheduleApprovedContent_commit_guard
    { generatedContent := [{ id := "a", content := "hello", type := ContentType.reply }],
      currentJobType := JobType.replying, showContentApproval := true }
    (ApiOutcome.resp { success := true }) (fun _ => ApiOutcome.resp { success := true }) 0
    (by decide)

end TradeupBot

namespace TradeupBot

/-- Helper: the `reduce`-style fold of the jobs `useEffect` computes the
maximum parsed `Job #N` number (as a `filterMap`/`foldr Nat.max`). -/
theorem maxJobNumber_eq_highest (l : List BotJob) : maxJobNumber l = highestJobNumber l := by
  suffices h : ∀ a : Nat,
      l.foldl (fun mx j =>
        match jobNameNumber j.name with
        | some n => Nat.max mx n
        | none => mx) a =
      Nat.max a ((l.filterMap (fun j => jobNameNumber j.name)).foldr Nat.max 0) by
    simpa [maxJobNumber, highestJobNumber] using h 0
  induction l with
  | nil => intro a; simp
  | cons j l ih =>
    intro a
    cases hj : jobNameNumber j.name with
    | none => simp [List.foldl_cons, List.filterMap_cons, hj, ih]
    | some n =>
      simp only [List.foldl_cons, List.filterMap_cons, hj, ih, List.foldr_cons]
      exact Nat.max_assoc a n _

/-- C9: creating a job without an explicit name, right after the jobs
`useEffect` has processed the current snapshot, assigns the name
`Job #N` where `N` is one greater than the highest `Job #<number>` among
the (demo-filtered) job names of that snapshot — max + 1, not count + 1. -/
theorem jobAutoNaming_spec (st : WorkflowState) (statusJobs : List BotJob) (jobName : String)
    (h : jsTrim jobName = "") :
    finalJobNameOf (updateJobsFromStatus st statusJobs).jobCounter jobName =
      "Job #" ++ toString (highestJobNumber (realJobsOf statusJobs) + 1) := by
  simp [finalJobNameOf, updateJobsFromStatus, h, maxJobNumber_eq_highest]

/-- Witness for C9: with existing jobs `Job #1` and `Job #3`, an unnamed
job is named `Job #4`. -/
theorem jobAutoNaming_spec_witness :
    jsTrim "" = "" ∧
    finalJobNameOf
        (updateJobsFromStatus {} [{ id := "a", name := "Job #1" },
          { id := "b", name := "Job #3" }]).jobCounter "" = "Job #4" := by
  refine ⟨by decide, ?_⟩
  have h := jobAutoNaming_spec {}
    [{ id := "a", name := "Job #1" }, { id := "b", name := "Job #3" }] "" (by decide)
  rw [h]
  decide

end TradeupBot

namespace TradeupBot

/-- C3: for every `count ≥ 1` and every parsable time window whose end is
after its start, `generateScheduledTimes` returns exactly `count` times,
the i-th being window-start + i × floor(window-minutes / count) minutes
(formatted `HH:MM`), and no generated minute value exceeds the window
end. -/
theorem generateScheduledTimes_spec (count sh sm eh em : Nat) (startTime endTime : String)
    (hs : splitTime startTime = some (sh, sm)) (he : splitTime endTime = some (eh, em))
    (hcount : 1 ≤ count)
    (hwin : (sh : Int) * 60 + sm < (eh : Int) * 60 + em) :
    (generateScheduledTimes count startTime endTime).length = count ∧
    (∀ i : Nat, i < count →
      (generateScheduledTimes count startTime endTime).get? i =
        some (formatPostTime (((sh : Int) * 60 + sm) +
          Int.fdiv (((eh : Int) * 60 + em) - ((sh : Int) * 60 + sm)) count * i))) ∧
    (∀ i : Nat, i < count →
      ((sh : Int) * 60 + sm) +
          Int.fdiv (((eh : Int) * 60 + em) - ((sh : Int) * 60 + sm)) count * i ≤
        (eh : Int) * 60 + em) := by
  have hgen : generateScheduledTimes count startTime endTime =
      generateScheduledTimesCore count ((sh : Int) * 60 + sm) ((eh : Int) * 60 + em) := by
    simp [generateScheduledTimes, hs, he]
  refine ⟨?_, ?_, ?_⟩
  · rw [hgen]
    simp only [generateScheduledTimesCore, List.length_map, List.length_range]
  · intro i hi
    rw [hgen]
    simp only [generateScheduledTimesCore, List.get?_eq_getElem?, List.getElem?_map,
      List.getElem?_range, hi, if_true, Option.map_some']
  · intro i hi
    have hc0 : (0 : Int) < (count : Int) := by exact_mod_cast hcount
    have hT : (0 : Int) ≤ ((eh : Int) * 60 + em) - ((sh : Int) * 60 + sm) := by omega
    have hkey :
        Int.fdiv (((eh : Int) * 60 + em) - ((sh : Int) * 60 + sm)) count * i ≤
          ((eh : Int) * 60 + em) - ((sh : Int) * 60 + sm) := by
      rw [Int.fdiv_eq_ediv _ (le_of_lt hc0)]
      calc (((eh : Int) * 60 + em) - ((sh : Int) * 60 + sm)) / (count : Int) * (i : Int) ≤
          (((eh : Int) * 60 + em) - ((sh : Int) * 60 + sm)) / (count : Int) * (count : Int) := by
            refine mul_le_mul_of_nonneg_left ?_ (Int.ediv_nonneg hT (le_of_lt hc0))
            exact_mod_cast le_of_lt hi
        _ ≤ ((eh : Int) * 60 + em) - ((sh : Int) * 60 + sm) :=
            Int.ediv_mul_le _ (ne_of_gt hc0)
    omega

/-- Witness for C3: `postsPerDay = 4` with window `09:00`–`17:00` (slot
width 120 minutes) yields exactly the four times
`09:00, 11:00, 13:00, 15:00`, and each minute value stays inside the
window. -/
theorem generateScheduledTimes_spec_witness :
    splitTime "09:00" = some (9, 0) ∧ splitTime "17:00" = some (17, 0) ∧
    (1 ≤ 4 ∧ ((9 : Int) * 60 + 0 < (17 : Int) * 60 + 0)) ∧
    (generateScheduledTimes 4 "09:00" "17:00").length = 4 ∧
    (∀ i : Nat, i < 4 →
      ((9 : Int) * 60 + 0) + Int.fdiv (((17 : Int) * 60 + 0) - ((9 : Int) * 60 + 0)) 4 * i ≤
        (17 : Int) * 60 + 0) ∧
    generateScheduledTimes 4 "09:00" "17:00" = ["09:00", "11:00", "13:00", "15:00"] := by
  refine ⟨by decide, by decide, ⟨by decide, by decide⟩, ?_, ?_, by decide⟩
  · exact (generateScheduledTimes_spec 4 9 0 17 0 "09:00" "17:00" (by decide) (by decide)
      (by decide) (by decide)).1
  · exact (generateScheduledTimes_spec 4 9 0 17 0 "09:00" "17:00" (by decide) (by decide)
      (by decide) (by decide)).2.2

end TradeupBot

namespace TradeupBot

/-- Helper: the reply-posting loop returns the incoming success count plus
the number of successful outcomes, and one `PostedReply` record per
successful outcome. -/
theorem postRepliesLoopFrom_spec (outAt : Nat → ApiOutcome PostReplyResp) (now : Nat) :
    ∀ (items : List GeneratedContent) (i sc : Nat),
      (postRepliesLoopFrom outAt now items i sc).1 =
        sc + countReplySuccessesFrom outAt i items.length ∧
      (postRepliesLoopFrom outAt now items i sc).2.length =
        countReplySuccessesFrom outAt i items.length := by
  intro items
  induction items with
  | nil => intro i sc; simp [postRepliesLoopFrom, countReplySuccessesFrom]
  | cons reply rest ih =>
    intro i sc
    cases hout : outAt i with
    | thrown msg =>
      have h := ih (i + 1) sc
      simp [postRepliesLoopFrom, countReplySuccessesFrom, hout, isPostReplySuccess, h.1, h.2]
    | resp pr =>
      by_cases hsucc : pr.success
      · have h := ih (i + 1) (sc + 1)
        simp only [postRepliesLoopFrom, countReplySuccessesFrom, hout, isPostReplySuccess,
          hsucc, if_true, List.length_cons, h.1, h.2]
        omega
      · have h := ih (i + 1) sc
        simp [postRepliesLoopFrom, countReplySuccessesFrom, hout, isPostReplySuccess, hsucc,
          h.1, h.2]

/-- C4: committing a reply batch attempts one `/api/post-reply-with-tracking`
call per approved item (no abort on failure), accumulates exactly one
`PostedReply` record per successful post, and when at least one succeeds
the records are shown (`showPostedReplies`) with no aggregate error. -/
theorem scheduleApprovedContent_reply_batch (st : WorkflowState)
    (jobOutcome : ApiOutcome CreateJobResp) (replyOutAt : Nat → ApiOutcome PostReplyResp)
    (now : Nat) (hty : st.currentJobType = .replying)
    (hk : 0 < countReplySuccessesFrom replyOutAt 0 (approvedCount st.generatedContent))
    (hap : 0 < approvedCount st.generatedContent) :
    (scheduleApprovedContent st jobOutcome replyOutAt now).2 =
      approvedCount st.generatedContent ∧
    (scheduleApprovedContent st jobOutcome replyOutAt now).1.postedReplies.length =
      countReplySuccessesFrom replyOutAt 0 (approvedCount st.generatedContent) ∧
    (scheduleApprovedContent st jobOutcome replyOutAt now).1.showPostedReplies = true ∧
    (scheduleApprovedContent st jobOutcome replyOutAt now).1.apiError = none := by
  simp only [approvedCount] at hk hap ⊢
  have hloop := postRepliesLoopFrom_spec replyOutAt now
    (st.generatedContent.filter (fun item => item.approved = some true)) 0 0
  unfold scheduleApprovedContent
  simp [hty, hap.ne', hloop.1, hloop.2, hk]

end TradeupBot

namespace TradeupBot

/-- Witness for C4: five approved replies where posting call #3 (index 2)
throws and the rest succeed end with exactly 4 `PostedReply` records. -/
theorem scheduleApprovedContent_reply_batch_witness :
    0 < countReplySuccessesFrom
        (fun i => if i = 2 then ApiOutcome.thrown "HTTP error! status: 500"
          else ApiOutcome.resp { success := true, tweet_id := some "id", tweet_url := some "url" })
        0 (approvedCount
          [{ id := "r0", content := "c0", type := ContentType.reply, approved := some true },
            { id := "r1", content := "c1", type := ContentType.reply, approved := some true },
            { id := "r2", content := "c2", type := ContentType.reply, approved := some true },
            { id := "r3", content := "c3", type := ContentType.reply, approved := some true },
            { id := "r4", content := "c4", type := ContentType.reply, approved := some true }]) ∧
    (scheduleApprovedContent
        { generatedContent :=
            [{ id := "r0", content := "c0", type := ContentType.reply, approved := some true },
              { id := "r1", content := "c1", type := ContentType.reply, approved := some true },
              { id := "r2", content := "c2", type := ContentType.reply, approved := some true },
              { id := "r3", content := "c3", type := ContentType.reply, approved := some true },
              { id := "r4", content := "c4", type := ContentType.reply, approved := some true }],
          currentJobType := JobType.replying, showContentApproval := true }
        (ApiOutcome.resp { success := true })
        (fun i => if i = 2 then ApiOutcome.thrown "HTTP error! status: 500"
          else ApiOutcome.resp { success := true, tweet_id := some "id", tweet_url := some "url" })
        9).1.postedReplies.length = 4 := by
  refine ⟨by decide, ?_⟩
  have h := (scheduleApprovedContent_reply_batch
    { generatedContent :=
        [{ id := "r0", content := "c0", type := ContentType.reply, approved := some true },
          { id := "r1", content := "c1", type := ContentType.reply, approved := some true },
          { id := "r2", content := "c2", type := ContentType.reply, approved := some true },
          { id := "r3", content := "c3", type := ContentType.reply, approved := some true },
          { id := "r4", content := "c4", type := ContentType.reply, approved := some true }],
      currentJobType := JobType.replying, showContentApproval := true }
    (ApiOutcome.resp { success := true })
    (fun i => if i = 2 then ApiOutcome.thrown "HTTP error! status: 500"
      else ApiOutcome.resp { success := true, tweet_id := some "id", tweet_url := some "url" })
    9 rfl (by decide) (by decide)).2.1
  rw [h]
  decide

end TradeupBot

namespace TradeupBot

/-- Helper: when every attempted posting outcome fails, the reply-posting
loop leaves the success count unchanged and collects no record. -/
theorem postRepliesLoopFrom_all_fail (outAt : Nat → ApiOutcome PostReplyResp) (now : Nat) :
    ∀ (items : List GeneratedContent) (i sc : Nat),
      (∀ j, i ≤ j → j < i + items.length → isPostReplySuccess (outAt j) = false) →
      postRepliesLoopFrom outAt now items i sc = (sc, []) := by
  intro items
  induction items with
  | nil => intro i sc _; simp [postRepliesLoopFrom]
  | cons reply rest ih =>
    intro i sc hfail
    have hi : isPostReplySuccess (outAt i) = false := by
      refine hfail i le_rfl ?_
      simp
    have hrest := ih (i + 1) sc (fun j h1 h2 => by
      refine hfail j (by omega) ?_
      simp only [List.length_cons]
      omega)
    cases hout : outAt i with
    | thrown msg => simp [postRepliesLoopFrom, hout, hrest]
    | resp pr =>
      have hps : pr.success = false := by simpa [isPostReplySuccess, hout] using hi
      simp [postRepliesLoopFrom, hout, hps, hrest]

/-- Counterexample to C2 as stated: committing a reply batch whose only
approved reply fails to post closes the approval modal and discards the
generated batch instead of remaining in Reviewing (the aggregate error is
surfaced, but the batch with its approval marks is not preserved). -/
theorem scheduleApprovedContent_zero_success_cex :
    (scheduleApprovedContent
        { generatedContent :=
            [{ id := "r0", content := "c0", type := ContentType.reply, approved := some true }],
          currentJobType := JobType.replying, showContentApproval := true }
        (ApiOutcome.resp { success := true }) (fun _ => ApiOutcome.resp { success := false })
        0).1.showContentApproval = false ∧
    (scheduleApprovedContent
        { generatedContent :=
            [{ id := "r0", content := "c0", type := ContentType.reply, approved := some true }],
          currentJobType := JobType.replying, showContentApproval := true }
        (ApiOutcome.resp { success := true }) (fun _ => ApiOutcome.resp { success := false })
        0).1.generatedContent = [] := by
  exact ⟨by decide, by decide⟩

/-- C2 (amended): when zero of the approved replies post successfully, the
aggregate error is surfaced and the posted-replies view is not opened, but
the workflow does not remain in Reviewing — the approval modal is closed
and the generated batch is discarded. -/
theorem scheduleApprovedContent_zero_success (st : WorkflowState)
    (jobOutcome : ApiOutcome CreateJobResp) (replyOutAt : Nat → ApiOutcome PostReplyResp)
    (now : Nat) (hty : st.currentJobType = .replying)
    (hap : 0 < approvedCount st.generatedContent)
    (hfail : ∀ j, j < approvedCount st.generatedContent →
      isPostReplySuccess (replyOutAt j) = false) :
    (scheduleApprovedContent st jobOutcome replyOutAt now).1.apiError =
      some "No replies were successfully posted. Please check your Twitter API connection." ∧
    (scheduleApprovedContent st jobOutcome replyOutAt now).1.showContentApproval = false ∧
    (scheduleApprovedContent st jobOutcome replyOutAt now).1.generatedContent = [] ∧
    (scheduleApprovedContent st jobOutcome replyOutAt now).1.postedReplies =
      st.postedReplies ∧
    (scheduleApprovedContent st jobOutcome replyOutAt now).1.showPostedReplies =
      st.showPostedReplies := by
  simp only [approvedCount] at hap hfail
  have hloop := postRepliesLoopFrom_all_fail replyOutAt now
    (st.generatedContent.filter (fun item => item.approved = some true)) 0 0
    (fun j h1 h2 => hfail j (by omega))
  unfold scheduleApprovedContent
  simp [hty, hap.ne', hloop]

/-- Witness for C2 (amended): two approved replies that both fail to post
leave the aggregate error, a closed modal, an empty batch, and the
previous posted-replies list untouched. -/
theorem scheduleApprovedContent_zero_success_witness :
    (({ generatedContent :=
          [{ id := "ra", content := "ca", type := ContentType.reply, approved := some true },
            { id := "rb", content := "cb", type := ContentType.reply, approved := some true }],
        currentJobType := JobType.replying, showContentApproval := true } :
      WorkflowState)).currentJobType = JobType.replying ∧
    0 < approvedCount
      [{ id := "ra", content := "ca", type := ContentType.reply, approved := some true },
        { id := "rb", content := "cb", type := ContentType.reply, approved := some true }] ∧
    (scheduleApprovedContent
        { generatedContent :=
            [{ id := "ra", content := "ca", type := ContentType.reply, approved := some true },
              { id := "rb", content := "cb", type := ContentType.reply, approved := some true }],
          currentJobType := JobType.replying, showContentApproval := true }
        (ApiOutcome.resp { success := true })
        (fun j => if j = 0 then ApiOutcome.thrown "HTTP error! status: 500"
          else ApiOutcome.resp { success := false })
        3).1.apiError =
      some "No replies were successfully posted. Please check your Twitter API connection." := by
  refine ⟨rfl, by decide, ?_⟩
  exact (scheduleApprovedContent_zero_success
    { generatedContent :=
        [{ id := "ra", content := "ca", type := ContentType.reply, approved := some true },
          { id := "rb", content := "cb", type := ContentType.reply, approved := some true }],
      currentJobType := JobType.replying, showContentApproval := true }
    (ApiOutcome.resp { success := true })
    (fun j => if j = 0 then ApiOutcome.thrown "HTTP error! status: 500"
      else ApiOutcome.resp { success := false })
    3 rfl (by decide) (by decide)).1

end TradeupBot

namespace TradeupBot

/-- Helper: when every `/api/generate-content` call in the window resolves
(no throw), the posting generation loop returns a batch with exactly one
item per successful response. -/
theorem runPostingGenerationFrom_ok (topics : Option (List String)) (pickAt : Nat → Nat)
    (genAt : Nat → ApiOutcome GenContentResp) (now : Nat) :
    ∀ (rem i : Nat), (∀ j, i ≤ j → j < i + rem → (genAt j).resolved = true) →
      ∃ items, runPostingGenerationFrom topics pickAt genAt now i rem = .ok items ∧
        items.length = countGenSuccessesFrom genAt i rem := by
  intro rem
  induction rem with
  | zero => intro i _; exact ⟨[], rfl, rfl⟩
  | succ rem ih =>
    intro i hres
    have hi : (genAt i).resolved = true := hres i le_rfl (by omega)
    cases hout : genAt i with
    | thrown msg => rw [hout] at hi; simp [ApiOutcome.resolved] at hi
    | resp r =>
      obtain ⟨rest, hrest, hlen⟩ := ih (i + 1) (fun j h1 h2 => hres j (by omega) (by omega))
      cases hc : r.content with
      | none =>
        refine ⟨rest, ?_, ?_⟩
        · simp [runPostingGenerationFrom, hout, hrest, hc]
        · simp [countGenSuccessesFrom, isGenSuccess, hout, hc, hlen]
      | some p =>
        by_cases hs : r.success
        · refine ⟨mkPostItem now i (pickTopic topics (pickAt i)) p :: rest, ?_, ?_⟩
          · simp [runPostingGenerationFrom, hout, hrest, hc, hs]
          · simp only [countGenSuccessesFrom, isGenSuccess, hout, hc, hs, List.length_cons,
              hlen, Option.isSome_some, Bool.and_true, if_true]
            omega
        · refine ⟨rest, ?_, ?_⟩
          · simp [runPostingGenerationFrom, hout, hrest, hc, hs]
          · simp [countGenSuccessesFrom, isGenSuccess, hout, hc, hs, hlen]

/-- Helper: assigning scheduled times preserves the batch length. -/
theorem assignScheduledTimes_length (content : List GeneratedContent) (times : List String) :
    (assignScheduledTimes content times).length = content.length := by
  simp [assignScheduledTimes]

/-- Counterexample to C1 as stated: in the posting flow a single thrown
generation call (here, the second of two) aborts the whole batch — the
successful first slot is discarded, no transition to Reviewing happens,
and the outer catch stores an error — instead of omitting just that slot
and proceeding with the successful subset. -/
theorem createJobWithApproval_posting_abort_cex :
    (createJobWithApproval {} { postsPerDay := some 2, topics := some ["Pokemon TCG"] } ""
        JobType.posting (fun _ => 0)
        (fun i => if i = 0 then ApiOutcome.resp { success := true, content := some { content := "ok" } }
          else ApiOutcome.thrown "HTTP error! status: 500")
        (ApiOutcome.resp { success := false }) (fun _ => ApiOutcome.resp { success := false })
        0).showContentApproval = false ∧
    (createJobWithApproval {} { postsPerDay := some 2, topics := some ["Pokemon TCG"] } ""
        JobType.posting (fun _ => 0)
        (fun i => if i = 0 then ApiOutcome.resp { success := true, content := some { content := "ok" } }
          else ApiOutcome.thrown "HTTP error! status: 500")
        (ApiOutcome.resp { success := false }) (fun _ => ApiOutcome.resp { success := false })
        0).generatedContent = [] ∧
    (createJobWithApproval {} { postsPerDay := some 2, topics := some ["Pokemon TCG"] } ""
        JobType.posting (fun _ => 0)
        (fun i => if i = 0 then ApiOutcome.resp { success := true, content := some { content := "ok" } }
          else ApiOutcome.thrown "HTTP error! status: 500")
        (ApiOutcome.resp { success := false }) (fun _ => ApiOutcome.resp { success := false })
        0).apiError = some "Failed to generate content: HTTP error! status: 500" := by
  exact ⟨by decide, by decide, by decide⟩

/-- C1 (amended): in the posting flow, as long as no generation call
throws, a call resolving unsuccessfully only omits its own slot —
generation of the remaining items continues, and the workflow transitions
to Reviewing with the successful subset (even an empty one: zero
successes is not a hard error for a posting batch).  A thrown call,
however, aborts the whole batch (see the counterexample). -/
theorem createJobWithApproval_posting_tolerates (st : WorkflowState) (settings : JobSettings)
    (jobName : String) (pickAt : Nat → Nat) (genAt : Nat → ApiOutcome GenContentResp)
    (tweetsOutcome : ApiOutcome TweetsResp) (replyAt : Nat → ApiOutcome GenReplyResp)
    (now : Nat)
    (hres : ∀ i, i < jsNatOr settings.postsPerDay 5 → (genAt i).resolved = true) :
    (createJobWithApproval st settings jobName JobType.posting pickAt genAt tweetsOutcome
        replyAt now).showContentApproval = true ∧
    (createJobWithApproval st settings jobName JobType.posting pickAt genAt tweetsOutcome
        replyAt now).apiError = none ∧
    (createJobWithApproval st settings jobName JobType.posting pickAt genAt tweetsOutcome
        replyAt now).generatedContent.length =
      countGenSuccessesFrom genAt 0 (jsNatOr settings.postsPerDay 5) := by
  obtain ⟨items, hok, hlen⟩ := runPostingGenerationFrom_ok settings.topics pickAt genAt now
    (jsNatOr settings.postsPerDay 5) 0 (fun j h1 h2 => hres j (by omega))
  unfold createJobWithApproval runPostingGeneration
  rw [hok]
  by_cases hn : jsTrim jobName = "" <;>
    simp [hn, finishGeneration, assignScheduledTimes_length, hlen]

/-- Witness for C1 (amended): three generation calls where the second
resolves unsuccessfully produce a two-item batch and still open the
approval modal with no error. -/
theorem createJobWithApproval_posting_tolerates_witness :
    (∀ i, i < jsNatOr (some 3) 5 →
      ((fun i => if i = 1 then ApiOutcome.resp ({ success := false } : GenContentResp)
          else ApiOutcome.resp { success := true, content := some { content := "ok" } }) i
        : ApiOutcome GenContentResp).resolved = true) ∧
    (createJobWithApproval {}
        { postsPerDay := some 3, topics := some ["A", "B"], postingTimeStart := some "09:00",
          postingTimeEnd := some "17:00" } "" JobType.posting (fun _ => 0)
        (fun i => if i = 1 then ApiOutcome.resp ({ success := false } : GenContentResp)
          else ApiOutcome.resp { success := true, content := some { content := "ok" } })
        (ApiOutcome.resp { success := false }) (fun _ => ApiOutcome.resp { success := false })
        7).showContentApproval = true ∧
    (createJobWithApproval {}
        { postsPerDay := some 3, topics := some ["A", "B"], postingTimeStart := some "09:00",
          postingTimeEnd := some "17:00" } "" JobType.posting (fun _ => 0)
        (fun i => if i = 1 then ApiOutcome.resp ({ success := false } : GenContentResp)
          else ApiOutcome.resp { success := true, content := some { content := "ok" } })
        (ApiOutcome.resp { success := false }) (fun _ => ApiOutcome.resp { success := false })
        7).generatedContent.length = 2 := by
  refine ⟨by decide, ?_, ?_⟩
  · exact (createJobWithApproval_posting_tolerates {}
      { postsPerDay := some 3, topics := some ["A", "B"], postingTimeStart := some "09:00",
        postingTimeEnd := some "17:00" } "" (fun _ => 0)
      (fun i => if i = 1 then ApiOutcome.resp ({ success := false } : GenContentResp)
        else ApiOutcome.resp { success := true, content := some { content := "ok" } })
      (ApiOutcome.resp { success := false }) (fun _ => ApiOutcome.resp { success := false })
      7 (by decide)).1
  · have h := (createJobWithApproval_posting_tolerates {}
      { postsPerDay := some 3, topics := some ["A", "B"], postingTimeStart := some "09:00",
        postingTimeEnd := some "17:00" } "" (fun _ => 0)
      (fun i => if i = 1 then ApiOutcome.resp ({ success := false } : GenContentResp)
        else ApiOutcome.resp { success := true, content := some { content := "ok" } })
      (ApiOutcome.resp { success := false }) (fun _ => ApiOutcome.resp { success := false })
      7 (by decide)).2.2
    rw [h]
    decide

end TradeupBot

namespace TradeupBot

/-- Helper: `regenerateContent` either leaves the batch as it was or
applies exactly one of the two single-item regeneration updates. -/
theorem regenerateContent_gc_cases (st : WorkflowState) (cid : String)
    (genO : ApiOutcome GenContentResp) (replyO : ApiOutcome GenReplyResp) :
    (regenerateContent st cid genO replyO).generatedContent = st.generatedContent ∨
    (∃ p, (regenerateContent st cid genO replyO).generatedContent =
      applyPostRegeneration st.generatedContent cid p) ∨
    (∃ s, (regenerateContent st cid genO replyO).generatedContent =
      applyReplyRegeneration st.generatedContent cid s) := by
  cases hfind : st.generatedContent.find? (fun c => c.id = cid) with
  | none => left; simp [regenerateContent, hfind]
  | some item =>
    by_cases hty : item.type = ContentType.post
    · cases genO with
      | thrown msg => left; simp [regenerateContent, hfind, hty]
      | resp r =>
        cases hc : r.content with
        | none => left; simp [regenerateContent, hfind, hty, hc]
        | some p =>
          by_cases hs : r.success
          · right; left
            exact ⟨p, by simp [regenerateContent, hfind, hty, hc, hs]⟩
          · left; simp [regenerateContent, hfind, hty, hc, hs]
    · cases replyO with
      | thrown msg => left; simp [regenerateContent, hfind, hty]
      | resp r =>
        by_cases hok : r.success = true ∧ jsStrTruthy r.reply = true
        · right; right
          exact ⟨jsTemplateStr r.reply, by simp [regenerateContent, hfind, hty, hok.1, hok.2]⟩
        · left
          rcases not_and_or.mp hok with hf | hf <;>
            simp [regenerateContent, hfind, hty, eq_false_of_ne_true hf]

/-- Helper: `regenerateContent` never touches an item whose id differs
from the requested one. -/
theorem regenerateContent_untouched (st : WorkflowState) (cid : String)
    (genO : ApiOutcome GenContentResp) (replyO : ApiOutcome GenReplyResp) :
    ∀ i old, st.generatedContent.get? i = some old → old.id ≠ cid →
      (regenerateContent st cid genO replyO).generatedContent.get? i = some old := by
  intro i old h hne
  have h' : st.generatedContent[i]? = some old := by simpa [List.get?_eq_getElem?] using h
  rcases regenerateContent_gc_cases st cid genO replyO with hcase | ⟨p, hcase⟩ | ⟨s, hcase⟩ <;>
    rw [hcase]
  · exact h
  · simp [applyPostRegeneration, List.get?_eq_getElem?, List.getElem?_map, h', hne]
  · simp [applyReplyRegeneration, List.get?_eq_getElem?, List.getElem?_map, h', hne]

end TradeupBot

namespace TradeupBot

/-- Counterexample to C7 as stated: a regeneration whose call resolves
with an unsuccessful response (`success: false`) leaves the item unchanged
but surfaces no error at all (`apiError` stays `null`), contradicting the
claim that every failure surfaces a scoped error. -/
theorem regenerateContent_silent_failure_cex :
    (regenerateContent
        { generatedContent :=
            [{ id := "post-1", content := "hello", type := ContentType.post,
               topic := some "T", approved := some true }] }
        "post-1" (ApiOutcome.resp { success := false })
        (ApiOutcome.resp { success := false })).apiError = none ∧
    (regenerateContent
        { generatedContent :=
            [{ id := "post-1", content := "hello", type := ContentType.post,
               topic := some "T", approved := some true }] }
        "post-1" (ApiOutcome.resp { success := false })
        (ApiOutcome.resp { success := false })).generatedContent =
      [{ id := "post-1", content := "hello", type := ContentType.post,
         topic := some "T", approved := some true }] := by
  exact ⟨by decide, by decide⟩

/-- C7 (amended): on a successful generation response `regenerateContent`
replaces the item's content and resets `approved` to pending; on a thrown
call the whole state is unchanged except for a scoped error; on a
resolved-but-unsuccessful response the state is unchanged but no error is
surfaced (and a previously shown error is even cleared); in every case all
other items are untouched. -/
theorem regenerateContent_spec (st : WorkflowState) (cid : String)
    (genO : ApiOutcome GenContentResp) (replyO : ApiOutcome GenReplyResp) :
    (∀ i old, st.generatedContent.get? i = some old → old.id ≠ cid →
      (regenerateContent st cid genO replyO).generatedContent.get? i = some old) ∧
    (∀ item, st.generatedContent.find? (fun c => c.id = cid) = some item →
      (item.type = ContentType.post →
        (∀ msg, genO = .thrown msg →
          regenerateContent st cid genO replyO =
            { st with
                actionLoading := none
                apiError := some ("Failed to regenerate content: " ++ msg) }) ∧
        (∀ r, genO = .resp r → r.success = false ∨ r.content = none →
          regenerateContent st cid genO replyO =
            { st with actionLoading := none, apiError := none }) ∧
        (∀ r p i old, genO = .resp r → r.success = true → r.content = some p →
          st.generatedContent.get? i = some old → old.id = cid →
          (regenerateContent st cid genO replyO).generatedContent.get? i =
            some { old with
                content := p.content
                approved := none
                engagement_score := p.engagement_score
                hashtags := p.hashtags
                mentions_tradeup := p.mentions_tradeup })) ∧
      (item.type = ContentType.reply →
        (∀ msg, replyO = .thrown msg →
          regenerateContent st cid genO replyO =
            { st with
                actionLoading := none
                apiError := some ("Failed to regenerate content: " ++ msg) }) ∧
        (∀ r, replyO = .resp r → r.success = false ∨ jsStrTruthy r.reply = false →
          regenerateContent st cid genO replyO =
            { st with actionLoading := none, apiError := none }) ∧
        (∀ r s i old, replyO = .resp r → r.success = true → r.reply = some s → s ≠ "" →
          st.generatedContent.get? i = some old → old.id = cid →
          (regenerateContent st cid genO replyO).generatedContent.get? i =
            some { old with content := s, approved := none }))) := by
  refine ⟨regenerateContent_untouched st cid genO replyO, ?_⟩
  intro item hfind
  constructor
  · intro hty
    refine ⟨?_, ?_, ?_⟩
    · intro msg hthrown
      subst hthrown
      simp [regenerateContent, hfind, hty]
    · intro r hresp hfail
      subst hresp
      rcases hfail with hf | hf
      · cases hc : r.content with
        | none => simp [regenerateContent, hfind, hty, hc]
        | some p => simp [regenerateContent, hfind, hty, hc, hf]
      · simp [regenerateContent, hfind, hty, hf]
    · intro r p i old hresp hs hc hget hid
      subst hresp
      have h' : st.generatedContent[i]? = some old := by simpa [List.get?_eq_getElem?] using hget
      simp [regenerateContent, hfind, hty, hc, hs, applyPostRegeneration,
        List.get?_eq_getElem?, List.getElem?_map, h', hid]
  · intro hty
    have htyp : ¬ (item.type = ContentType.post) := by rw [hty]; intro hcon; cases hcon
    refine ⟨?_, ?_, ?_⟩
    · intro msg hthrown
      subst hthrown
      simp [regenerateContent, hfind, htyp]
    · intro r hresp hfail
      subst hresp
      rcases hfail with hf | hf <;> simp [regenerateContent, hfind, htyp, hf]
    · intro r s i old hresp hs hr hns hget hid
      subst hresp
      have h' : st.generatedContent[i]? = some old := by simpa [List.get?_eq_getElem?] using hget
      have htr : jsStrTruthy r.reply = true := by simp [jsStrTruthy, hr, hns]
      simp [regenerateContent, hfind, htyp, hs, htr, applyReplyRegeneration, hr, hns,
        jsTemplateStr, jsStrTruthy, List.get?_eq_getElem?, List.getElem?_map, h', hid]

/-- Witness for C7 (amended): regenerating an approved post item with a
successful response replaces its content and resets it to pending. -/
theorem regenerateContent_spec_witness :
    (([{ id := "post-1", content := "hello", type := ContentType.post, topic := some "T",
          approved := some true }] :
        List GeneratedContent).find? (fun c => c.id = "post-1")) =
      some { id := "post-1", content := "hello", type := ContentType.post,
             topic := some "T", approved := some true } ∧
    (regenerateContent
        { generatedContent :=
            [{ id := "post-1", content := "hello", type := ContentType.post,
               topic := some "T", approved := some true }] }
        "post-1"
        (ApiOutcome.resp { success := true, content := some { content := "fresh" } })
        (ApiOutcome.resp { success := false })).generatedContent.get? 0 =
      some { id := "post-1", content := "fresh", type := ContentType.post,
             topic := some "T", approved := none } := by
  refine ⟨by decide, ?_⟩
  exact ((regenerateContent_spec
      { generatedContent :=
          [{ id := "post-1", content := "hello", type := ContentType.post,
             topic := some "T", approved := some true }] }
      "post-1"
      (ApiOutcome.resp { success := true, content := some { content := "fresh" } })
      (ApiOutcome.resp { success := false })).2
    { id := "post-1", content := "hello", type := ContentType.post, topic := some "T",
      approved := some true }
    (by decide)).1 rfl |>.2.2
    { success := true, content := some { content := "fresh" } } { content := "fresh" } 0
    { id := "post-1", content := "hello", type := ContentType.post, topic := some "T",
      approved := some true }
    rfl rfl rfl (by decide) rfl

end TradeupBot

namespace TradeupBot

/-- Helper: `regenerateForDifferentTweet` either leaves the batch as it
was or applies exactly one of the four single-item regeneration updates
(the same-topic one arising through its `regenerateContent` fallback). -/
theorem regenerateForDifferentTweet_gc_cases (st : WorkflowState) (cid : String)
    (tweetsO : ApiOutcome TweetsResp) (pick : Nat) (replyO : ApiOutcome GenReplyResp)
    (genO : ApiOutcome GenContentResp) :
    (regenerateForDifferentTweet st cid tweetsO pick replyO genO).generatedContent =
      st.generatedContent ∨
    (∃ p, (regenerateForDifferentTweet st cid tweetsO pick replyO genO).generatedContent =
      applyPostRegeneration st.generatedContent cid p) ∨
    (∃ s, (regenerateForDifferentTweet st cid tweetsO pick replyO genO).generatedContent =
      applyReplyRegeneration st.generatedContent cid s) ∨
    (∃ t s, (regenerateForDifferentTweet st cid tweetsO pick replyO genO).generatedContent =
      applyDifferentTweetRegeneration st.generatedContent cid t s) ∨
    (∃ topic p,
      (regenerateForDifferentTweet st cid tweetsO pick replyO genO).generatedContent =
        applyDifferentTopicRegeneration st.generatedContent cid topic p) := by
  simp only [regenerateForDifferentTweet]
  split
  · exact Or.inl rfl
  · split
    · split
      · exact Or.inl rfl
      · split
        · split
          · split
            · exact Or.inl rfl
            · split
              · exact Or.inl rfl
              · split
                · exact Or.inl rfl
                · split
                  · exact Or.inr (Or.inr (Or.inr (Or.inl ⟨_, _, rfl⟩)))
                  · exact Or.inl rfl
          · exact Or.inl rfl
        · exact Or.inl rfl
    · split
      · rcases regenerateContent_gc_cases
            { st with actionLoading := some ("regenerate-different-" ++ cid), apiError := none }
            cid genO (.resp { success := false }) with h | ⟨p, h⟩ | ⟨s, h⟩
        · exact Or.inl h
        · exact Or.inr (Or.inl ⟨p, h⟩)
        · exact Or.inr (Or.inr (Or.inl ⟨s, h⟩))
      · split
        · exact Or.inl rfl
        · split
          · exact Or.inl rfl
          · split
            · split
              · exact Or.inr (Or.inr (Or.inr (Or.inr ⟨_, _, rfl⟩)))
              · exact Or.inl rfl
            · exact Or.inl rfl

end TradeupBot

namespace TradeupBot

/-- Helper: the post-regeneration update never marks an item rejected. -/
theorem applyPostRegeneration_neverRejected (content : List GeneratedContent) (cid : String)
    (p : GenPayload) (h : neverRejected content) :
    neverRejected (applyPostRegeneration content cid p) := by
  intro c hc
  simp only [applyPostRegeneration, List.mem_map] at hc
  obtain ⟨a, ha, rfl⟩ := hc
  by_cases hid : a.id = cid
  · simp [hid]
  · simp only [hid, if_false]
    exact h a ha

/-- Helper: the reply-regeneration update never marks an item rejected. -/
theorem applyReplyRegeneration_neverRejected (content : List GeneratedContent) (cid : String)
    (s : String) (h : neverRejected content) :
    neverRejected (applyReplyRegeneration content cid s) := by
  intro c hc
  simp only [applyReplyRegeneration, List.mem_map] at hc
  obtain ⟨a, ha, rfl⟩ := hc
  by_cases hid : a.id = cid
  · simp [hid]
  · simp only [hid, if_false]
    exact h a ha

/-- Helper: the different-tweet regeneration update never marks an item
rejected. -/
theorem applyDifferentTweetRegeneration_neverRejected (content : List GeneratedContent)
    (cid : String) (t : Tweet) (s : String) (h : neverRejected content) :
    neverRejected (applyDifferentTweetRegeneration content cid t s) := by
  intro c hc
  simp only [applyDifferentTweetRegeneration, List.mem_map] at hc
  obtain ⟨a, ha, rfl⟩ := hc
  by_cases hid : a.id = cid
  · simp [hid]
  · simp only [hid, if_false]
    exact h a ha

/-- Helper: the different-topic regeneration update never marks an item
rejected. -/
theorem applyDifferentTopicRegeneration_neverRejected (content : List GeneratedContent)
    (cid : String) (topic : String) (p : GenPayload) (h : neverRejected content) :
    neverRejected (applyDifferentTopicRegeneration content cid topic p) := by
  intro c hc
  simp only [applyDifferentTopicRegeneration, List.mem_map] at hc
  obtain ⟨a, ha, rfl⟩ := hc
  by_cases hid : a.id = cid
  · simp [hid]
  · simp only [hid, if_false]
    exact h a ha

/-- Helper: every single reviewing action preserves the absence of
rejected items. -/
theorem applyReviewOp_neverRejected (st : WorkflowState) (op : ReviewOp)
    (h : neverRejected st.generatedContent) :
    neverRejected (applyReviewOp st op).generatedContent := by
  cases op with
  | approve cid =>
    intro c hc
    simp only [applyReviewOp, approveContent, List.mem_map] at hc
    obtain ⟨a, ha, rfl⟩ := hc
    by_cases hid : a.id = cid
    · simp [hid]
    · simp only [hid, if_false]
      exact h a ha
  | regenerate cid genO replyO =>
    rcases regenerateContent_gc_cases st cid genO replyO with hcase | ⟨p, hcase⟩ | ⟨s, hcase⟩ <;>
      simp only [applyReviewOp] <;> rw [hcase]
    · exact h
    · exact applyPostRegeneration_neverRejected _ _ _ h
    · exact applyReplyRegeneration_neverRejected _ _ _ h
  | regenerateDifferent cid tweetsO pick replyO genO =>
    rcases regenerateForDifferentTweet_gc_cases st cid tweetsO pick replyO genO with
      hcase | ⟨p, hcase⟩ | ⟨s, hcase⟩ | ⟨t, s, hcase⟩ | ⟨topic, p, hcase⟩ <;>
      simp only [applyReviewOp] <;> rw [hcase]
    · exact h
    · exact applyPostRegeneration_neverRejected _ _ _ h
    · exact applyReplyRegeneration_neverRejected _ _ _ h
    · exact applyDifferentTweetRegeneration_neverRejected _ _ _ _ h
    · exact applyDifferentTopicRegeneration_neverRejected _ _ _ _ h

/-- Helper: a whole sequence of reviewing actions preserves the absence of
rejected items. -/
theorem applyReviewOps_neverRejected (ops : List ReviewOp) :
    ∀ st : WorkflowState, neverRejected st.generatedContent →
      neverRejected (applyReviewOps st ops).generatedContent := by
  induction ops with
  | nil => intro st h; exact h
  | cons op ops ih =>
    intro st h
    exact ih (applyReviewOp st op) (applyReviewOp_neverRejected st op h)

/-- C10: starting from a batch in which every item is pending
(`approved = null`), no sequence of approve / regenerate /
regenerate-different actions ever marks an item rejected, so the approval
modal's "Rejected" count is always zero. -/
theorem reviewOps_never_reject (st : WorkflowState) (ops : List ReviewOp)
    (h : ∀ c ∈ st.generatedContent, c.approved = none) :
    rejectedCount (applyReviewOps st ops).generatedContent = 0 := by
  have h0 : neverRejected st.generatedContent := by
    intro c hc
    rw [h c hc]
    intro hcon
    cases hcon
  have hinv := applyReviewOps_neverRejected ops st h0
  simp only [rejectedCount, List.length_eq_zero, List.filter_eq_nil_iff]
  intro a ha
  simpa using hinv a ha

/-- Witness for C10: a freshly generated two-item pending batch run
through an approve, a failed regenerate, and a successful
regenerate-different still shows zero rejected items. -/
theorem reviewOps_never_reject_witness :
    (∀ c ∈ ([{ id := "a", content := "ca", type := ContentType.post, topic := some "T" },
              { id := "b", content := "cb", type := ContentType.reply, tweetId := some "t0" }] :
            List GeneratedContent), c.approved = none) ∧
    rejectedCount
      (applyReviewOps
        { generatedContent :=
            [{ id := "a", content := "ca", type := ContentType.post, topic := some "T" },
              { id := "b", content := "cb", type := ContentType.reply, tweetId := some "t0" }] }
        [ReviewOp.approve "a",
          ReviewOp.regenerate "b" (ApiOutcome.resp { success := false })
            (ApiOutcome.thrown "HTTP error! status: 500"),
          ReviewOp.regenerateDifferent "b"
            (ApiOutcome.resp
              { success := true,
                tweets := some [{ id := "t1", text := "x", author := "y" }] }) 0
            (ApiOutcome.resp { success := true, reply := some "new reply" })
            (ApiOutcome.resp { success := false }),
          ReviewOp.approve "b"]).generatedContent = 0 := by
  refine ⟨by decide, ?_⟩
  exact reviewOps_never_reject
    { generatedContent :=
        [{ id := "a", content := "ca", type := ContentType.post, topic := some "T" },
          { id := "b", content := "cb", type := ContentType.reply, tweetId := some "t0" }] }
    [ReviewOp.approve "a",
      ReviewOp.regenerate "b" (ApiOutcome.resp { success := false })
        (ApiOutcome.thrown "HTTP error! status: 500"),
      ReviewOp.regenerateDifferent "b"
        (ApiOutcome.resp
          { success := true,
            tweets := some [{ id := "t1", text := "x", author := "y" }] }) 0
        (ApiOutcome.resp { success := true, reply := some "new reply" })
        (ApiOutcome.resp { success := false }),
      ReviewOp.approve "b"]
    (by decide)

end TradeupBot
